import Mathlib

/-!
Verification development for the D2K multi-agent demo backend.

The definitions below are shallow embeddings of the Python sources:
  * `src/backend/agents/finance/utils.py`  (metric, market-cap and
    recommendation helpers),
  * `src/backend/agents/finance/agent.py`  (`FinanceAnalyzer`), and
  * `src/backend/app.py`                   (agent registry and the
    `process_document` route).

Machine floats are modelled by exact numbers: price data and returns live in
`ℚ`; the square roots taken by `pandas.std` and `252 ** 0.5` force the
annualized volatility and the Sharpe-like ratio into `ℝ`.  External services
(yfinance history fetches, `stock.info`, chart rendering, the LLM, the
document splitter) are modelled as explicit environment records supplying
their observable results.
-/

namespace D2K

/-- Python `str.upper()` restricted to the character-by-character ASCII case
mapping used by the repository's ticker strings. -/
def pyUpper (s : String) : String :=
  String.mk (s.toList.map Char.toUpper)

/-- Python `str.strip()`: drop leading and trailing whitespace.  (Modelled on
ASCII whitespace, which covers every string the repository manipulates.) -/
def pyStrip (s : String) : String :=
  String.mk (((s.toList.dropWhile Char.isWhitespace).reverse.dropWhile
    Char.isWhitespace).reverse)

/-! ### `src/backend/agents/finance/utils.py` -/

/-- Sample mean used by `returns.mean()` (`pandas`). -/
def sampleMean (rs : List ℚ) : ℚ :=
  rs.sum / (rs.length : ℚ)

/-- Sample variance with one delta degree of freedom, the default of
`pandas` `Series.std` (squared).  For fewer than two data points `pandas`
yields NaN, which compares as not-greater-than-zero everywhere the code uses
it; the `ℚ` model returns `0` there, which takes the same branches. -/
def sampleVar (rs : List ℚ) : ℚ :=
  ((rs.map (fun x => (x - sampleMean rs) ^ 2)).sum) / ((rs.length - 1 : ℕ) : ℚ)

/-- `returns.std()`: the square root of the sample variance. -/
noncomputable def sampleStd (rs : List ℚ) : ℝ :=
  Real.sqrt ((sampleVar rs : ℚ) : ℝ)

/-- `annual_return = returns.mean() * 252 * 100` (`utils.py` line 7 and
`agent.py` lines 140-142). -/
def annualReturn (rs : List ℚ) : ℚ :=
  sampleMean rs * 252 * 100

/-- `annual_volatility = returns.std() * (252 ** 0.5) * 100` (`utils.py`
line 8 and `agent.py` lines 143-145). -/
noncomputable def annualVolatility (rs : List ℚ) : ℝ :=
  sampleStd rs * Real.sqrt 252 * 100

/-- `sharpe_ratio = annual_return / annual_volatility if annual_volatility > 0
else 0` (`utils.py` line 9 and `agent.py` line 146). -/
noncomputable def sharpeRatio (rs : List ℚ) : ℝ :=
  if 0 < annualVolatility rs then (annualReturn rs : ℝ) / annualVolatility rs
  else 0

/-- One row of the fetched daily history (`hist` data frame): the `Close`,
`High` and `Low` columns the code reads.  The date index feeds only the
rendered chart image, which is an external blob (see `TickerEnv.chartData`). -/
structure Row where
  close : ℚ
  high : ℚ
  low : ℚ
  deriving DecidableEq, Repr

/-- `hist["Close"].pct_change().dropna()`: relative change between
consecutive closes; `dropna` removes the leading NaN, leaving one return per
adjacent pair. -/
def pctChange : List ℚ → List ℚ
  | a :: b :: rest => (b - a) / a :: pctChange (b :: rest)
  | _ => []

/-- The daily-return series the agent computes from the fetched history
(`agent.py` line 132). -/
def returnsOf (hist : List Row) : List ℚ :=
  pctChange (hist.map Row.close)

/-- Round `num / den` to the nearest integer, ties to even — the rounding of
Python `format(x, ".2f")` on exactly representable values. -/
def roundHalfEven (num den : ℕ) : ℕ :=
  let q := num / den
  let r := num % den
  if 2 * r < den then q
  else if den < 2 * r then q + 1
  else if q % 2 = 0 then q else q + 1

/-- Python `f"{n / d:.2f}"` for natural `n` and positive `d`: the quotient
with exactly two decimal places. -/
def fmt2 (n d : ℕ) : String :=
  let c := roundHalfEven (n * 100) d
  toString (c / 100) ++ "." ++
    (if c % 100 < 10 then "0" ++ toString (c % 100) else toString (c % 100))

/-- `format_market_cap` (`utils.py` lines 23-35); `agent.py` lines 155-166
inline the same branch chain verbatim.  The market cap reported by yfinance
is an integer number of dollars. -/
def format_market_cap (market_cap : ℕ) : String :=
  if 0 < market_cap then
    if 1000000000000 ≤ market_cap then
      "$" ++ fmt2 market_cap 1000000000000 ++ "T"
    else if 1000000000 ≤ market_cap then
      "$" ++ fmt2 market_cap 1000000000 ++ "B"
    else if 1000000 ≤ market_cap then
      "$" ++ fmt2 market_cap 1000000 ++ "M"
    else
      "$" ++ fmt2 market_cap 1
  else "N/A"

/-- `generate_recommendation` (`utils.py` lines 37-46); `agent.py` lines
190-199 inline the same four branches verbatim. -/
noncomputable def generate_recommendation (sharpe_ratio : ℝ) : String :=
  if sharpe_ratio > 1 then "**STRONG BUY** - Excellent risk-adjusted returns"
  else if sharpe_ratio > 0.5 then "**BUY** - Good risk-adjusted returns"
  else if sharpe_ratio > 0 then
    "**HOLD** - Positive but modest risk-adjusted returns"
  else "**SELL** - Poor risk-adjusted returns"

/-- The metrics dictionary assembled by `utils.calculate_metrics` and (minus
the 52-week fields when absent) by `agent.py` lines 218-228. -/
structure Metrics where
  currentPrice : ℚ
  annualReturn : ℚ
  annualVolatility : ℝ
  sharpeRatio : ℝ
  high52w : ℚ
  low52w : ℚ

/-- `calculate_metrics` (`utils.py` lines 1-21).  `iloc[-1]`, `max()` and
`min()` are taken with a default that is never used on the nonempty frames
the callers pass. -/
noncomputable def calculate_metrics (hist : List Row) : Metrics :=
  let rs := returnsOf hist
  { currentPrice := ((hist.map Row.close).getLast?).getD 0
    annualReturn := annualReturn rs
    annualVolatility := annualVolatility rs
    sharpeRatio := sharpeRatio rs
    high52w := ((hist.map Row.high).max?).getD 0
    low52w := ((hist.map Row.low).min?).getD 0 }

/-! ### `src/backend/agents/finance/agent.py` — `FinanceAnalyzer` -/

/-- Company information read from `stock.info` (`agent.py` lines 149-153):
`shortName`, `industry` and `sector` default to the ticker or `"N/A"` when
missing, `marketCap` defaults to `0`. -/
structure CompanyInfo where
  shortName : Option String
  industry : Option String
  sector : Option String
  marketCap : ℕ
  deriving DecidableEq, Repr

/-- The external world observed while one ticker is analyzed.  `fetch n` is
what the `n`-th call to `stock.history(start, end)` produces: `.ok rows` a
data frame (possibly empty), `.error ()` a raised exception.  `infoResult`
models reading `stock.info` (line 149): `.ok` the returned mapping (also
covering the `hasattr` fallback to `{}` via default fields), `.error msg` an
exception with message `msg`.  `chartOk`/`chartData` model the matplotlib
rendering block of lines 168-187: on success the base64-encoded PNG blob,
on failure the inner `except` skips the chart. -/
structure TickerEnv where
  fetch : ℕ → Except Unit (List Row)
  infoResult : Except String CompanyInfo
  chartOk : Bool
  chartData : String

/-- Observable outcome of the retry loop of `agent.py` lines 102-123:
the value of the Python local `hist` after the loop, the number of
`stock.history` calls made, and the list of `time.sleep` durations
executed.  `hist` is a function-level local of `_analyze_tickers` that is
only ever assigned at line 110, so it persists across iterations of the
ticker loop: when every attempt of the current ticker raises, the loop
leaves `hist` at the value the previous tickers left it — `none` only when
no earlier assignment ever happened. -/
structure FetchTrace where
  hist : Option (List Row)
  attempts : ℕ
  sleeps : List ℕ
  deriving Repr

/-- The body of `while retry_count < max_retries` (`agent.py` lines
107-123).  `remaining = max_retries - retry_count`; a nonempty frame breaks
out of the loop, an empty frame or an exception increments the count and
sleeps one second.  On an exception `hist` keeps its previous value. -/
def fetchLoopAux (fetch : ℕ → Except Unit (List Row)) :
    ℕ → ℕ → List ℕ → Option (List Row) → FetchTrace
  | 0, a, s, h => ⟨h, a, s⟩
  | r + 1, a, s, h =>
    match fetch a with
    | .ok rows =>
      if rows = [] then fetchLoopAux fetch r (a + 1) (s ++ [1]) (some rows)
      else ⟨some rows, a + 1, s⟩
    | .error _ => fetchLoopAux fetch r (a + 1) (s ++ [1]) h

/-- `max_retries = 3` (`agent.py` line 104). -/
def max_retries : ℕ := 3

/-- The whole retry loop for one ticker, started with `retry_count = 0` and
`hist` holding the value `h0` the previous loop iterations left in the
function-level local (`none` at function entry). -/
def fetchHistory (fetch : ℕ → Except Unit (List Row))
    (h0 : Option (List Row)) : FetchTrace :=
  fetchLoopAux fetch max_retries 0 [] h0

/-- Spells the `UnboundLocalError` message raised at line 125 when `hist`
was never assigned by any iteration so far: CPython up to 3.10 words it
`local variable 'hist' referenced before assignment` (3.11 and later word
it `cannot access local variable ...`; no claim below depends on the exact
wording).  The apostrophes are built from their character code. -/
def unboundLocalMsg : String :=
  "local variable " ++ String.singleton (Char.ofNat 39) ++ "hist" ++
    String.singleton (Char.ofNat 39) ++ " referenced before assignment"

/-- Structured content of the markdown analysis block assembled at lines
202-216.  The exact interpolation of float metrics into the text is
display-only formatting of IEEE doubles and is not modelled; the discrete
fields that the text embeds are. -/
structure AnalysisDoc where
  companyName : String
  ticker : String
  sector : String
  industry : String
  marketCapStr : String
  recommendation : String

/-- One entry of the `results` list: either a status-only record
`{"ticker": t, "status": s}` (lines 126-128, 135-137, 242) or a full report
`{"ticker", "company_name", "analysis", "metrics"}` (lines 231-238). -/
inductive TickerResult where
  | status (ticker : String) (status : String)
  | report (ticker : String) (companyName : String) (analysis : AnalysisDoc)
      (metrics : Metrics)

/-- The `"ticker"` key present in every result record. -/
def tickerOf : TickerResult → String
  | .status t _ => t
  | .report t _ _ _ => t

/-- One entry of the `charts` list: `{"ticker": t, "chart": blob}` (line
184). -/
structure ChartEntry where
  ticker : String
  chart : String
  deriving DecidableEq, Repr

/-- Return value of the `FinanceAnalyzer` entry points: the `results` and
`charts` lists plus the optional `message`/`error` keys some paths add. -/
structure AnalysisOutput where
  results : List TickerResult
  charts : List ChartEntry
  message : Option String
  error : Option String

/-- The body of `for ticker in tickers` (`agent.py` lines 98-242) for a
single ticker: the one result record appended to `results` and the chart
entry appended to `charts` when one is produced.  `h0` is the value of the
function-level `hist` local when this iteration begins — the local is never
reset between tickers, so when every fetch attempt of this ticker raises,
line 125 inspects whatever frame an earlier ticker left behind (a stale
frame), and raises `UnboundLocalError` only when no assignment ever
happened (the outer handler converts that to an error status).  The other
branches mirror the source in order: the `hist.empty` give-up, the
minimum-history check, reading `stock.info` (an exception is caught by the
outer handler), then the report assembly with the inlined market-cap
formatting and recommendation bands. -/
noncomputable def analyzeTickerStep (e : TickerEnv) (t : String)
    (h0 : Option (List Row)) : TickerResult × Option ChartEntry :=
  match (fetchHistory e.fetch h0).hist with
  | none => (.status t ("Error: " ++ unboundLocalMsg), none)
  | some hist =>
    if hist = [] then (.status t "No data available after retries", none)
    else
      let returns := returnsOf hist
      if returns.length < 5 then (.status t "Insufficient price history", none)
      else
        match e.infoResult with
        | .error m => (.status t ("Error: " ++ m), none)
        | .ok info =>
          let companyName := info.shortName.getD t
          let industry := info.industry.getD "N/A"
          let sector := info.sector.getD "N/A"
          let marketCapStr := format_market_cap info.marketCap
          let chart : Option ChartEntry :=
            if e.chartOk then some ⟨t, e.chartData⟩ else none
          let doc : AnalysisDoc :=
            { companyName := companyName
              ticker := t
              sector := sector
              industry := industry
              marketCapStr := marketCapStr
              recommendation := generate_recommendation (sharpeRatio returns) }
          let m : Metrics :=
            { currentPrice := ((hist.map Row.close).getLast?).getD 0
              annualReturn := annualReturn returns
              annualVolatility := annualVolatility returns
              sharpeRatio := sharpeRatio returns
              high52w := ((hist.map Row.high).max?).getD 0
              low52w := ((hist.map Row.low).min?).getD 0 }
          (.report t companyName doc m, chart)

/-- The value of the `hist` local after one ticker's iteration: whatever
the retry loop left in it (it is only assigned inside that loop). -/
noncomputable def nextHist (e : TickerEnv) (h0 : Option (List Row)) :
    Option (List Row) :=
  (fetchHistory e.fetch h0).hist

/-- The `for` loop of `_analyze_tickers` with its two accumulator lists,
appending one result record per ticker and the chart entry when present,
and threading the `hist` local from each iteration to the next. -/
noncomputable def analyzeLoop (env : String → TickerEnv) :
    List String → List TickerResult → List ChartEntry → Option (List Row) →
      List TickerResult × List ChartEntry
  | [], rs, cs, _ => (rs, cs)
  | t :: ts, rs, cs, h0 =>
    let step := analyzeTickerStep (env t) t h0
    analyzeLoop env ts (rs ++ [step.1]) (cs ++ step.2.toList)
      (nextHist (env t) h0)

/-- The per-ticker outcomes of the loop in order, threading the `hist`
local: the specification form of `analyzeLoop` without its accumulators. -/
noncomputable def stepsOf (env : String → TickerEnv) :
    List String → Option (List Row) →
      List (TickerResult × Option ChartEntry)
  | [], _ => []
  | t :: ts, h0 =>
    analyzeTickerStep (env t) t h0 :: stepsOf env ts (nextHist (env t) h0)

/-- The value of the `hist` local after a run of the loop over `ts`. -/
noncomputable def finalHist (env : String → TickerEnv) :
    List String → Option (List Row) → Option (List Row)
  | [], h0 => h0
  | t :: ts, h0 => finalHist env ts (nextHist (env t) h0)

/-- `FinanceAnalyzer._analyze_tickers` (`agent.py` lines 89-244): runs the
per-ticker loop — with `hist` unbound at function entry — and returns
`{"results": ..., "charts": ...}`. -/
noncomputable def analyzeTickers (env : String → TickerEnv)
    (tickers : List String) : AnalysisOutput :=
  let out := analyzeLoop env tickers [] [] none
  { results := out.1, charts := out.2, message := none, error := none }

/-- `FinanceAnalyzer.process_tickers` (`agent.py` lines 29-46): keep the
truthy entries, strip and upper-case each, truncate to the first 5; an empty
result returns the `"No valid tickers provided"` message instead of
analyzing. -/
noncomputable def process_tickers (env : String → TickerEnv)
    (tickers_list : List String) : AnalysisOutput :=
  let tickers :=
    (((tickers_list.filter (fun t => t != "")).map
      (fun t => pyUpper (pyStrip t))).take 5)
  if tickers = [] then
    { results := [], charts := [],
      message := some "No valid tickers provided", error := none }
  else analyzeTickers env tickers

/-- The ticker extraction of `process_file` for a text file (`agent.py`
lines 59-62): each line stripped, blank lines dropped.  (For CSV files the
column extraction is performed by the external `pandas.read_csv`.) -/
def txtTickers (lines : List String) : List String :=
  (lines.map pyStrip).filter (fun l => l != "")

/-- The post-read half of `FinanceAnalyzer.process_file` (`agent.py` lines
64-83), applied to the ticker entries read from the file: every (non-None)
entry is stripped and upper-cased — note no truthiness filter here, unlike
`process_tickers` — then truncated to the first 5. -/
noncomputable def process_file (env : String → TickerEnv)
    (tickersRead : List String) : AnalysisOutput :=
  let valid := ((tickersRead.map (fun t => pyUpper (pyStrip t))).take 5)
  if valid = [] then
    { results := [], charts := [],
      message := some "No valid tickers found in file", error := none }
  else analyzeTickers env valid

/-! ### `src/backend/app.py` — agent registry and document routing -/

/-- One entry of `agent_registry` (`app.py` lines 42-86): identifier,
display name, description, the ordered supported file-type tags and the
tag-to-MIME mapping.  The live `processor` object is the dispatch target
modelled by the branches of `process_document` below. -/
structure AgentEntry where
  id : String
  name : String
  description : String
  supportedTypes : List String
  mimeTypes : List (String × String)
  deriving DecidableEq, Repr

/-- The `"summarizer"` registry entry. -/
def summarizerEntry : AgentEntry :=
  { id := "summarizer"
    name := "Document Summarizer"
    description := "Summarize documents and videos"
    supportedTypes := ["txt", "pdf", "csv", "mp4", "mov"]
    mimeTypes := [("txt", "text/plain"), ("pdf", "application/pdf"),
      ("csv", "text/csv"), ("mp4", "video/mp4"), ("mov", "video/quicktime")] }

/-- The `"finance"` registry entry. -/
def financeEntry : AgentEntry :=
  { id := "finance"
    name := "Finance Analyzer"
    description := "Analyze stocks and financial data"
    supportedTypes := ["txt", "csv"]
    mimeTypes := [("txt", "text/plain"), ("csv", "text/csv")] }

/-- The `"marketing"` registry entry. -/
def marketingEntry : AgentEntry :=
  { id := "marketing"
    name := "Marketing Assistant"
    description := "Marketing automation and analysis tools"
    supportedTypes := ["txt", "csv", "json"]
    mimeTypes := [("txt", "text/plain"), ("csv", "text/csv"),
      ("json", "application/json")] }

/-- The `"healthcare"` registry entry. -/
def healthcareEntry : AgentEntry :=
  { id := "healthcare"
    name := "Healthcare Assistant"
    description := "Healthcare advice and wellness tips"
    supportedTypes := ["txt"]
    mimeTypes := [("txt", "text/plain")] }

/-- `agent_registry` (`app.py` lines 42-86), built once at process start. -/
def agent_registry : List AgentEntry :=
  [summarizerEntry, financeEntry, marketingEntry, healthcareEntry]

/-- `agent_type in agent_registry` / `agent_registry[agent_type]`:
dictionary lookup by identifier. -/
def lookupAgent (agentType : String) : Option AgentEntry :=
  agent_registry.find? (fun a => a.id == agentType)

/-- `file_ext in mime_types` / `mime_types[file_ext]`. -/
def lookupMime (agent : AgentEntry) (ext : String) : Option String :=
  (agent.mimeTypes.find? (fun p => p.1 == ext)).map Prod.snd

/-- Index of the last occurrence of `c` in the character list. -/
def lastIdxOf (c : Char) : List Char → Option ℕ
  | [] => none
  | x :: xs =>
    match lastIdxOf c xs with
    | some i => some (i + 1)
    | none => if x = c then some 0 else none

/-- `Path(filename).suffix[1:].lower()` (`app.py` line 160): `pathlib`
takes the part after the last dot provided that dot is neither the first nor
the last character of the name, else the empty string; `[1:]` drops the dot
and `lower()` lower-cases the tag. -/
def filenameExt (filename : String) : String :=
  let cs := filename.toList
  match lastIdxOf (Char.ofNat 46) cs with
  | none => ""
  | some i =>
    if 0 < i ∧ i + 1 < cs.length then
      String.mk ((cs.drop (i + 1)).map Char.toLower)
    else ""

/-- An invocation of an external service on behalf of a request: loading and
ingesting the uploaded document (splitter, embeddings, vector store), one
market-data history fetch for a ticker, or one chat-completion call. -/
inductive ExtCall where
  | documentLoad
  | marketFetch (ticker : String)
  | llmCall
  deriving DecidableEq, Repr

/-- A `POST /api/process_document` request: whether a `file` part is
present, the uploaded filename, the optional `agent_type` form field
(defaulting to `"summarizer"`), and the ticker entries the finance path
reads back from the saved file (for CSV the column extraction is done by
the external `pandas.read_csv`; for text it is `txtTickers` of the lines). -/
structure DocRequest where
  hasFile : Bool
  filename : String
  agentTypeField : Option String
  fileTickers : List String

/-- External world for one `process_document` request: the per-ticker
environment the finance agent observes, plus the chunks the external
splitter produces and the two LLM summarization calls of the summarizer
branch. -/
structure DocEnv where
  financeEnv : String → TickerEnv
  chunks : List String
  chunkSummary : String → String
  finalSummary : String → String

/-- Body of the JSON response of `process_document`. -/
inductive DocBody where
  | err (msg : String)
  | finance (out : AnalysisOutput)
  | summary (text : String)
  | noBody

/-- HTTP response of the route plus the trace of external calls made while
producing it. -/
structure DocResponse where
  body : DocBody
  status : ℕ
  calls : List ExtCall

/-- `process_document` (`app.py` lines 142-218): reject a missing file,
then an unknown `agent_type`, then an unsupported extension, each as a 400
with an error message and before any external service is touched; otherwise
dispatch to the finance or summarizer branch (the registry's other agents
have no branch in this route, so the view returns `None` and Flask turns
that into a server error).  The finance branch performs one or more history
fetches per analyzed ticker; the summarizer branch loads and ingests the
document, then makes one LLM call per chunk and one final combine call. -/
noncomputable def process_document (env : DocEnv) (req : DocRequest) :
    DocResponse :=
  if req.hasFile = false then ⟨.err "No file provided", 400, []⟩
  else
    let agentType := req.agentTypeField.getD "summarizer"
    match lookupAgent agentType with
    | none => ⟨.err ("Unknown agent type: " ++ agentType), 400, []⟩
    | some agent =>
      let ext := filenameExt req.filename
      match lookupMime agent ext with
      | none =>
        ⟨.err ("Unsupported file type for " ++ agent.name ++ ": " ++ ext),
          400, []⟩
      | some _fileType =>
        if agentType = "finance" then
          let out := process_file env.financeEnv req.fileTickers
          ⟨.finance out, 200,
            out.results.map (fun r => ExtCall.marketFetch (tickerOf r))⟩
        else if agentType = "summarizer" then
          let summaries := env.chunks.map env.chunkSummary
          let combined := String.intercalate "\n" summaries
          ⟨.summary (env.finalSummary combined), 200,
            ExtCall.documentLoad ::
              (env.chunks.map (fun _ => ExtCall.llmCall) ++ [ExtCall.llmCall])⟩
        else ⟨.noBody, 500, []⟩

/-! ### Spec-side definition used to settle claim C3

The claim words normalization as: strip and upper-case every entry, drop the
entries that are empty (after that normalization), keep the first 5.  This
definition follows the claim's words; the source (`process_tickers` above)
instead drops falsy entries before stripping. -/

/-- Ticker normalization as claim C3 states it. -/
def specNormalize (ts : List String) : List String :=
  (((ts.map (fun t => pyUpper (pyStrip t))).filter (fun t => t != "")).take 5)

/-! ### Concrete inputs used to instantiate the theorems -/

/-- A `stock.info` mapping with every optional key missing. -/
def defaultInfo : CompanyInfo := ⟨none, none, none, 0⟩

/-- A ticker environment whose every history fetch succeeds with an empty
frame. -/
def emptyFetchEnv : TickerEnv := ⟨fun _ => .ok [], .ok defaultInfo, false, ""⟩

/-- Every ticker sees `emptyFetchEnv`. -/
def envAllEmpty : String → TickerEnv := fun _ => emptyFetchEnv

/-- A history row whose three columns share one price. -/
def row (q : ℚ) : Row := ⟨q, q, q⟩

/-- A three-day history: two daily returns, below the five-return minimum. -/
def hist3 : List Row := [row 1, row 2, row 3]

/-- A six-day history: five daily returns, exactly enough. -/
def hist6 : List Row := [row 1, row 2, row 3, row 4, row 5, row 6]

/-- Every ticker fetches `hist3` on the first attempt. -/
def shortHistEnv : String → TickerEnv :=
  fun _ => ⟨fun _ => .ok hist3, .ok defaultInfo, true, "CHART3"⟩

/-- Every ticker fetches `hist6` at once, has full company info and a chart
that renders. -/
def successEnv : String → TickerEnv :=
  fun _ => ⟨fun _ => .ok hist6,
    .ok ⟨some "ACME Corp", some "Tech", some "Technology", 2000000⟩,
    true, "CHART6"⟩

/-- A document-route environment with no chunks and trivial LLM calls. -/
def trivDocEnv : DocEnv := ⟨envAllEmpty, [], fun _ => "", fun _ => ""⟩

/-- The returns series used to instantiate the Sharpe-guard theorem. -/
def rs0 : List ℚ := [1, 2]

/-- An environment in which the ticker `BAD` raises on every history fetch
while every other ticker fetches `hist6` at the first attempt. -/
def staleEnv : String → TickerEnv := fun t =>
  if t = "BAD" then ⟨fun _ => .error (), .ok defaultInfo, true, "CHARTB"⟩
  else ⟨fun _ => .ok hist6, .ok defaultInfo, true, "CHARTG"⟩

/-- An upload of an executable addressed to the finance agent. -/
def exeReq : DocRequest := ⟨true, "malware.exe", some "finance", []⟩

/-- An upload addressed to an agent identifier missing from the registry. -/
def wizardReq : DocRequest := ⟨true, "notes.txt", some "wizard", []⟩

end D2K

namespace D2K

/-! ### Claim theorems for the pure finance helpers -/

/-- C4: the recommendation computed from a Sharpe-like ratio is exactly one
of four fixed labels, selected by the bands ratio > 1 strong buy,
ratio > 0.5 buy, ratio > 0 hold, else sell.  `generate_recommendation` is a
pure function, so identical input yields the same label by definition. -/
theorem c4_recommendation_bands :
    (∀ x : ℝ, 1 < x → generate_recommendation x =
      "**STRONG BUY** - Excellent risk-adjusted returns") ∧
    (∀ x : ℝ, x ≤ 1 → (0.5 : ℝ) < x → generate_recommendation x =
      "**BUY** - Good risk-adjusted returns") ∧
    (∀ x : ℝ, x ≤ 0.5 → 0 < x → generate_recommendation x =
      "**HOLD** - Positive but modest risk-adjusted returns") ∧
    (∀ x : ℝ, x ≤ 0 → generate_recommendation x =
      "**SELL** - Poor risk-adjusted returns") ∧
    (∀ x : ℝ, generate_recommendation x ∈
      ["**STRONG BUY** - Excellent risk-adjusted returns",
       "**BUY** - Good risk-adjusted returns",
       "**HOLD** - Positive but modest risk-adjusted returns",
       "**SELL** - Poor risk-adjusted returns"]) := by
  refine ⟨?_, ?_, ?_, ?_, ?_⟩
  · intro x hx
    unfold generate_recommendation
    rw [if_pos hx]
  · intro x h1 h2
    unfold generate_recommendation
    rw [if_neg (not_lt.mpr h1), if_pos h2]
  · intro x h1 h2
    unfold generate_recommendation
    rw [if_neg (not_lt.mpr (h1.trans (by norm_num))), if_neg (not_lt.mpr h1),
      if_pos h2]
  · intro x hx
    unfold generate_recommendation
    rw [if_neg (not_lt.mpr (hx.trans (by norm_num))),
      if_neg (not_lt.mpr (hx.trans (by norm_num))), if_neg (not_lt.mpr hx)]
  · intro x
    unfold generate_recommendation
    split_ifs <;> simp

/-- Witness for C4 at the concrete ratios 2, 0.75, 0.25 and -1. -/
theorem c4_witness :
    generate_recommendation 2 =
      "**STRONG BUY** - Excellent risk-adjusted returns" ∧
    generate_recommendation 0.75 = "**BUY** - Good risk-adjusted returns" ∧
    generate_recommendation 0.25 =
      "**HOLD** - Positive but modest risk-adjusted returns" ∧
    generate_recommendation (-1) = "**SELL** - Poor risk-adjusted returns" :=
  ⟨c4_recommendation_bands.1 2 (by norm_num),
   c4_recommendation_bands.2.1 0.75 (by norm_num) (by norm_num),
   c4_recommendation_bands.2.2.1 0.25 (by norm_num) (by norm_num),
   c4_recommendation_bands.2.2.2.1 (-1) (by norm_num)⟩

/-- C5: market-cap formatting is monotonic across the unit thresholds: a
positive cap of 999,999 renders as the plain dollar string `$999999.00`
with no unit suffix, caps in [10^6, 10^9) carry an `M` suffix, caps in
[10^9, 10^12) a `B` suffix, and caps of at least 10^12 a `T` suffix. -/
theorem c5_market_cap_thresholds :
    format_market_cap 999999 = "$999999.00" ∧
    (∀ n : ℕ, 1000000 ≤ n → n < 1000000000 →
      ∃ b, format_market_cap n = "$" ++ b ++ "M") ∧
    (∀ n : ℕ, 1000000000 ≤ n → n < 1000000000000 →
      ∃ b, format_market_cap n = "$" ++ b ++ "B") ∧
    (∀ n : ℕ, 1000000000000 ≤ n →
      ∃ b, format_market_cap n = "$" ++ b ++ "T") := by
  refine ⟨by decide, ?_, ?_, ?_⟩
  · intro n h1 h2
    refine ⟨fmt2 n 1000000, ?_⟩
    unfold format_market_cap
    rw [if_pos (by omega), if_neg (by omega), if_neg (by omega), if_pos h1]
  · intro n h1 h2
    refine ⟨fmt2 n 1000000000, ?_⟩
    unfold format_market_cap
    rw [if_pos (by omega), if_neg (by omega), if_pos h1]
  · intro n h1
    refine ⟨fmt2 n 1000000000000, ?_⟩
    unfold format_market_cap
    rw [if_pos (by omega), if_pos h1]

/-- Witness for C5 at 2·10^6, 5·10^9 and 2·10^12. -/
theorem c5_witness :
    (∃ b, format_market_cap 2000000 = "$" ++ b ++ "M") ∧
    (∃ b, format_market_cap 5000000000 = "$" ++ b ++ "B") ∧
    (∃ b, format_market_cap 2000000000000 = "$" ++ b ++ "T") :=
  ⟨c5_market_cap_thresholds.2.1 2000000 (by norm_num) (by norm_num),
   c5_market_cap_thresholds.2.2.1 5000000000 (by norm_num) (by norm_num),
   c5_market_cap_thresholds.2.2.2 2000000000000 (by norm_num)⟩

/-- C6: the Sharpe-like ratio equals the annualized return divided by the
annualized volatility whenever the volatility is positive, and equals 0 when
the volatility is 0; the volatility is never negative, so the guarded
division never runs with a non-positive divisor.  The same holds for the
`sharpe_ratio` field of `calculate_metrics`. -/
theorem c6_sharpe_guard (rs : List ℚ) :
    0 ≤ annualVolatility rs ∧
    (0 < annualVolatility rs →
      sharpeRatio rs = (annualReturn rs : ℝ) / annualVolatility rs) ∧
    (annualVolatility rs = 0 → sharpeRatio rs = 0) ∧
    (∀ hist : List Row,
      (calculate_metrics hist).sharpeRatio = sharpeRatio (returnsOf hist)) := by
  refine ⟨?_, ?_, ?_, fun hist => rfl⟩
  · unfold annualVolatility sampleStd
    positivity
  · intro h
    unfold sharpeRatio
    rw [if_pos h]
  · intro h
    unfold sharpeRatio
    rw [if_neg (by rw [h]; exact lt_irrefl 0)]

/-- Witness for C6 on the two-point return series `rs0 = [1, 2]`, whose
volatility is positive. -/
theorem c6_witness :
    0 < annualVolatility rs0 ∧
    sharpeRatio rs0 = (annualReturn rs0 : ℝ) / annualVolatility rs0 := by
  have hvar : sampleVar rs0 = 1 / 2 := by
    norm_num [sampleVar, sampleMean, rs0]
  have hcast : (0 : ℝ) < ((sampleVar rs0 : ℚ) : ℝ) := by
    rw [hvar]; norm_num
  have hpos : 0 < annualVolatility rs0 := by
    unfold annualVolatility sampleStd
    exact mul_pos (mul_pos (Real.sqrt_pos.mpr hcast)
      (Real.sqrt_pos.mpr (by norm_num))) (by norm_num)
  exact ⟨hpos, (c6_sharpe_guard rs0).2.1 hpos⟩

/-! ### Structural lemmas about the per-ticker loop -/

/-- Every result record carries the ticker it was produced for. -/
theorem tickerOf_step (e : TickerEnv) (t : String) (h0 : Option (List Row)) :
    tickerOf (analyzeTickerStep e t h0).1 = t := by
  unfold analyzeTickerStep
  dsimp only
  repeat' split
  all_goals rfl

/-- The accumulator loop of `_analyze_tickers` appends the per-ticker
outcomes in order: one result per ticker and the chart entries of the
tickers that produced one. -/
theorem analyzeLoop_eq (env : String → TickerEnv) (ts : List String) :
    ∀ rs cs h0, analyzeLoop env ts rs cs h0 =
      (rs ++ (stepsOf env ts h0).map Prod.fst,
       cs ++ (stepsOf env ts h0).filterMap Prod.snd) := by
  induction ts with
  | nil => intro rs cs h0; simp [analyzeLoop, stepsOf]
  | cons t ts ih =>
    intro rs cs h0
    cases h2 : (analyzeTickerStep (env t) t h0).2 with
    | none => simp [analyzeLoop, stepsOf, ih, h2, List.filterMap_cons]
    | some c => simp [analyzeLoop, stepsOf, ih, h2, List.filterMap_cons]

/-- The `results` list of `_analyze_tickers`, outcome by outcome. -/
theorem analyzeTickers_results (env : String → TickerEnv) (ts : List String) :
    (analyzeTickers env ts).results = (stepsOf env ts none).map Prod.fst := by
  simp [analyzeTickers, analyzeLoop_eq]

/-- The `charts` list of `_analyze_tickers`, outcome by outcome. -/
theorem analyzeTickers_charts (env : String → TickerEnv) (ts : List String) :
    (analyzeTickers env ts).charts =
      (stepsOf env ts none).filterMap Prod.snd := by
  simp [analyzeTickers, analyzeLoop_eq]

/-- The tickers of the per-ticker outcomes, in order, are the input. -/
theorem stepsOf_tickers (env : String → TickerEnv) :
    ∀ (ts : List String) (h0 : Option (List Row)),
      (stepsOf env ts h0).map (tickerOf ∘ Prod.fst) = ts := by
  intro ts
  induction ts with
  | nil => intro h0; rfl
  | cons t ts ih =>
    intro h0
    simp [stepsOf, Function.comp, tickerOf_step, ih]

/-- The per-ticker outcomes of a concatenated batch split at the `hist`
value the first half leaves behind. -/
theorem stepsOf_append (env : String → TickerEnv) :
    ∀ (ts₁ ts₂ : List String) (h0 : Option (List Row)),
      stepsOf env (ts₁ ++ ts₂) h0 =
        stepsOf env ts₁ h0 ++ stepsOf env ts₂ (finalHist env ts₁ h0) := by
  intro ts₁
  induction ts₁ with
  | nil => intro ts₂ h0; rfl
  | cons t ts ih =>
    intro ts₂ h0
    simp [stepsOf, finalHist, ih]

/-! ### Lemmas about the retry loop -/

/-- The loop makes at most `remaining` further fetch attempts. -/
theorem fetchLoopAux_attempts_le (f : ℕ → Except Unit (List Row)) :
    ∀ r a s h, (fetchLoopAux f r a s h).attempts ≤ a + r := by
  intro r
  induction r with
  | zero => intro a s h; simp [fetchLoopAux]
  | succ r ih =>
    intro a s h
    simp only [fetchLoopAux]
    cases hf : f a with
    | ok rows =>
      dsimp only
      by_cases he : rows = []
      · rw [if_pos he]
        exact (ih (a + 1) (s ++ [1]) (some rows)).trans (by omega)
      · rw [if_neg he]
        dsimp only
        omega
    | error u =>
      dsimp only
      exact (ih (a + 1) (s ++ [1]) h).trans (by omega)

/-- When the first three attempts all return an empty frame, the loop makes
exactly three calls, sleeps one second after each, and leaves `hist` bound
to the empty frame — whatever the local held before. -/
theorem fetchHistory_all_empty (f : ℕ → Except Unit (List Row))
    (hprev : Option (List Row)) (h : ∀ n, n < 3 → f n = .ok []) :
    fetchHistory f hprev = ⟨some [], 3, [1, 1, 1]⟩ := by
  have h0 := h 0 (by omega)
  have h1 := h 1 (by omega)
  have h2 := h 2 (by omega)
  simp [fetchHistory, max_retries, fetchLoopAux, h0, h1, h2]

/-! ### Lemmas about the per-ticker branches -/

/-- An empty frame surviving the retries yields the no-data status. -/
theorem analyzeTickerStep_noData (e : TickerEnv) (t : String)
    (h0 : Option (List Row)) (h : (fetchHistory e.fetch h0).hist = some []) :
    analyzeTickerStep e t h0 =
      (.status t "No data available after retries", none) := by
  unfold analyzeTickerStep
  rw [h]
  simp

/-- When every attempt raised and no earlier iteration ever assigned
`hist`, line 125 raises `UnboundLocalError` and the outer handler converts
it into an error status. -/
theorem analyzeTickerStep_histNone (e : TickerEnv) (t : String)
    (h0 : Option (List Row)) (h : (fetchHistory e.fetch h0).hist = none) :
    analyzeTickerStep e t h0 =
      (.status t ("Error: " ++ unboundLocalMsg), none) := by
  unfold analyzeTickerStep
  rw [h]

/-- A nonempty history with fewer than five returns yields the
insufficient-history status and no chart. -/
theorem analyzeTickerStep_insufficient (e : TickerEnv) (t : String)
    (h0 : Option (List Row)) (hist : List Row)
    (hh : (fetchHistory e.fetch h0).hist = some hist)
    (hne : hist ≠ []) (hlen : (returnsOf hist).length < 5) :
    analyzeTickerStep e t h0 =
      (.status t "Insufficient price history", none) := by
  unfold analyzeTickerStep
  rw [hh]
  simp [hne, hlen]

/-- An exception while reading `stock.info` is converted by the outer
handler to an error status. -/
theorem analyzeTickerStep_infoError (e : TickerEnv) (t : String)
    (h0 : Option (List Row)) (hist : List Row) (m : String)
    (hh : (fetchHistory e.fetch h0).hist = some hist)
    (hne : hist ≠ []) (hlen : ¬ (returnsOf hist).length < 5)
    (hio : e.infoResult = .error m) :
    analyzeTickerStep e t h0 = (.status t ("Error: " ++ m), none) := by
  unfold analyzeTickerStep
  rw [hh]
  simp [hne, hlen, hio]

/-- Every ticker yields a record for itself: a status entry or a report. -/
theorem analyzeTickerStep_shape (e : TickerEnv) (t : String)
    (h0 : Option (List Row)) :
    (∃ s, (analyzeTickerStep e t h0).1 = TickerResult.status t s) ∨
    (∃ c a m, (analyzeTickerStep e t h0).1 = TickerResult.report t c a m) := by
  unfold analyzeTickerStep
  dsimp only
  repeat' split
  all_goals first
    | exact Or.inl ⟨_, rfl⟩
    | exact Or.inr ⟨_, _, _, rfl⟩

/-- A chart entry produced for a ticker is labeled with that ticker. -/
theorem chartLabel_step (e : TickerEnv) (t : String)
    (h0 : Option (List Row)) :
    ∀ c ∈ (analyzeTickerStep e t h0).2, c.ticker = t := by
  unfold analyzeTickerStep
  dsimp only
  repeat' split
  all_goals intro c hc
  all_goals first
    | (dsimp only at hc
       rw [Option.mem_def, Option.some_inj] at hc
       rw [← hc])
    | exact absurd hc (by simp)

/-- When every ticker's analysis produces a chart, the charts list is
parallel to the ticker list. -/
theorem charts_parallel (env : String → TickerEnv) :
    ∀ (ts : List String) (h0 : Option (List Row)),
      (∀ p ∈ stepsOf env ts h0, (p.2).isSome = true) →
      ((stepsOf env ts h0).filterMap Prod.snd).map ChartEntry.ticker = ts := by
  intro ts
  induction ts with
  | nil => intro h0 _; rfl
  | cons t ts ih =>
    intro h0 hall
    have h1 : ((analyzeTickerStep (env t) t h0).2).isSome = true :=
      hall _ (by simp [stepsOf])
    obtain ⟨c, hc⟩ := Option.isSome_iff_exists.mp h1
    simp only [stepsOf, List.filterMap_cons, hc, List.map_cons]
    rw [chartLabel_step (env t) t h0 c (Option.mem_def.mpr hc)]
    refine congrArg (List.cons t) (ih (nextHist (env t) h0) ?_)
    intro p hp
    refine hall p ?_
    simp only [stepsOf]
    exact List.mem_cons_of_mem _ hp

/-- The analyzed tickers of `process_tickers`: the truthy entries, stripped
and upper-cased, truncated to the first 5. -/
theorem process_tickers_analyzed (env : String → TickerEnv)
    (ts : List String) :
    (process_tickers env ts).results.map tickerOf =
      (((ts.filter (fun t => t != "")).map
        (fun t => pyUpper (pyStrip t))).take 5) := by
  unfold process_tickers
  dsimp only
  by_cases hL : (((ts.filter (fun t => t != "")).map
      (fun t => pyUpper (pyStrip t))).take 5) = []
  · rw [if_pos hL, hL]; rfl
  · rw [if_neg hL, analyzeTickers_results, List.map_map, stepsOf_tickers]

/-- The analyzed tickers of `process_file`: every entry read from the file,
stripped and upper-cased, truncated to the first 5. -/
theorem process_file_analyzed (env : String → TickerEnv)
    (tickersRead : List String) :
    (process_file env tickersRead).results.map tickerOf =
      ((tickersRead.map (fun t => pyUpper (pyStrip t))).take 5) := by
  unfold process_file
  dsimp only
  by_cases hL : ((tickersRead.map (fun t => pyUpper (pyStrip t))).take 5) = []
  · rw [if_pos hL, hL]; rfl
  · rw [if_neg hL, analyzeTickers_results, List.map_map, stepsOf_tickers]

/-! ### Claim theorems for the finance agent -/

/-- C1: a ticker's history fetch is tried at most 3 times in total
(`max_retries = 3`, so after an empty first result at most 2 further tries
follow — "retried up to 3 times" as an upper bound holds for the whole
loop); when every attempt returns an empty frame, exactly 3 calls are made,
each followed by a fixed 1-second sleep, and the ticker is then given up on
with the no-data status — each empty attempt assigns `hist` the empty
frame, so this holds whatever the local held before (`h0`). -/
theorem c1_retry_policy (e : TickerEnv) (t : String)
    (h0 : Option (List Row)) :
    (fetchHistory e.fetch h0).attempts ≤ 3 ∧
    ((∀ n, n < 3 → e.fetch n = Except.ok []) →
      (fetchHistory e.fetch h0).attempts = 3 ∧
      (fetchHistory e.fetch h0).sleeps = [1, 1, 1] ∧
      (analyzeTickerStep e t h0).1 =
        TickerResult.status t "No data available after retries") := by
  refine ⟨?_, ?_⟩
  · simpa [fetchHistory, max_retries] using
      fetchLoopAux_attempts_le e.fetch 3 0 [] h0
  · intro h
    have htr := fetchHistory_all_empty e.fetch h0 h
    refine ⟨by rw [htr], by rw [htr], ?_⟩
    rw [analyzeTickerStep_noData e t h0 (by rw [htr])]

/-- Witness for C1: a ticker whose every fetch returns an empty frame,
analyzed with `hist` unbound. -/
theorem c1_witness :
    (fetchHistory emptyFetchEnv.fetch none).attempts = 3 ∧
    (fetchHistory emptyFetchEnv.fetch none).sleeps = [1, 1, 1] ∧
    (analyzeTickerStep emptyFetchEnv "AAA" none).1 =
      TickerResult.status "AAA" "No data available after retries" :=
  (c1_retry_policy emptyFetchEnv "AAA" none).2 (fun _ _ => rfl)

/-- C2 names a code bug.  The claim — intended by the source's own
per-ticker try/except and its per-iteration `stock = None` reset — says
every per-ticker exception is caught and converted to a status entry.  But
the `hist` local is never reset between iterations of the ticker loop: in
the batch `["GOOD", "BAD"]` below, `GOOD` fetches a year of history at the
first attempt while every one of `BAD`'s three fetch attempts raises, so
line 125 inspects `GOOD`'s leftover frame and the code emits for `BAD` a
full report built from `GOOD`'s price history — a report record, not the
status entry the claim requires. -/
theorem c2_bug_stale_report :
    (∀ n, (staleEnv "BAD").fetch n = Except.error ()) ∧
    (fetchHistory (staleEnv "BAD").fetch (some hist6)).attempts = 3 ∧
    nextHist (staleEnv "GOOD") none = some hist6 ∧
    (∃ c a m, ((analyzeTickers staleEnv ["GOOD", "BAD"]).results)[1]? =
      some (TickerResult.report "BAD" c a m)) := by
  refine ⟨fun n => rfl, rfl, rfl, ?_⟩
  rw [analyzeTickers_results]
  exact ⟨_, _, _, rfl⟩

/-- C10: a ticker whose fetch produces a nonempty history with fewer than
5 daily returns yields the per-ticker insufficient-history status —
whatever the `hist` local held before — with no metrics, recommendation or
chart for that ticker (the record is status-only and no chart entry is
emitted); every surrounding ticker is still processed, in order, and the
batch's records are those of the prefix (from the fresh local), then the
status record, then those of the suffix run from the frame this ticker
fetched. -/
theorem c10_insufficient_history (env : String → TickerEnv) (t : String)
    (histT : List Row) (pre post : List String)
    (hh : ∀ h0, (fetchHistory (env t).fetch h0).hist = some histT)
    (hne : histT ≠ []) (hlen : (returnsOf histT).length < 5) :
    (∀ h0, analyzeTickerStep (env t) t h0 =
      (TickerResult.status t "Insufficient price history", none)) ∧
    (analyzeTickers env (pre ++ t :: post)).results.map tickerOf =
      pre ++ t :: post ∧
    (analyzeTickers env (pre ++ t :: post)).results =
      (stepsOf env pre none).map Prod.fst ++
        TickerResult.status t "Insufficient price history" ::
          (stepsOf env post (some histT)).map Prod.fst ∧
    (analyzeTickers env (pre ++ t :: post)).charts =
      (stepsOf env pre none).filterMap Prod.snd ++
        (stepsOf env post (some histT)).filterMap Prod.snd := by
  have hstep : ∀ h0, analyzeTickerStep (env t) t h0 =
      (TickerResult.status t "Insufficient price history", none) :=
    fun h0 => analyzeTickerStep_insufficient (env t) t h0 histT (hh h0) hne hlen
  have hnext : ∀ h0, nextHist (env t) h0 = some histT := fun h0 => hh h0
  refine ⟨hstep, ?_, ?_, ?_⟩
  · rw [analyzeTickers_results, List.map_map, stepsOf_tickers]
  · rw [analyzeTickers_results, stepsOf_append]
    simp [stepsOf, hstep, hnext]
  · rw [analyzeTickers_charts, stepsOf_append]
    simp [stepsOf, hstep, hnext, List.filterMap_cons]

/-- Witness for C10: a three-day history gives two returns, below the
minimum of five. -/
theorem c10_witness :
    analyzeTickerStep (shortHistEnv "AAA") "AAA" none =
      (TickerResult.status "AAA" "Insufficient price history", none) ∧
    (analyzeTickers shortHistEnv ["AAA"]).charts = [] := by
  have h := c10_insufficient_history shortHistEnv "AAA" hist3 [] []
    (fun h0 => rfl) (by decide) (by decide)
  exact ⟨h.1 none, by simpa [stepsOf] using h.2.2.2⟩

/-- Counterexample to C9 as stated: with a ticker whose history stays
empty, the results list has a record for the ticker but the charts list has
no corresponding entry at any position — the two lists are not parallel. -/
theorem c9_counterexample :
    (analyzeTickers envAllEmpty ["AAA"]).results.length = 1 ∧
    (analyzeTickers envAllEmpty ["AAA"]).charts = [] := by
  have hstep := analyzeTickerStep_noData (envAllEmpty "AAA") "AAA" none rfl
  constructor
  · simp [analyzeTickers_results, stepsOf]
  · simp [analyzeTickers_charts, stepsOf, hstep]

/-- C9 (amended): every input ticker contributes exactly one result record,
in order; the charts list consists, in the same order, of the chart entries
of the tickers whose analysis produced one, each labeled with its ticker —
so the charts list is parallel to the results list exactly when every
ticker's analysis produced a chart.  The per-ticker outcomes (`stepsOf`)
thread the `hist` local along the loop. -/
theorem c9_structure (env : String → TickerEnv) (ts : List String) :
    (analyzeTickers env ts).results = (stepsOf env ts none).map Prod.fst ∧
    (analyzeTickers env ts).results.map tickerOf = ts ∧
    (analyzeTickers env ts).charts =
      (stepsOf env ts none).filterMap Prod.snd ∧
    (∀ t h0, ∀ c ∈ (analyzeTickerStep (env t) t h0).2, c.ticker = t) ∧
    ((∀ p ∈ stepsOf env ts none, (p.2).isSome = true) →
      (analyzeTickers env ts).charts.map ChartEntry.ticker = ts) := by
  refine ⟨analyzeTickers_results env ts, ?_, analyzeTickers_charts env ts,
    fun t h0 => chartLabel_step (env t) t h0, ?_⟩
  · rw [analyzeTickers_results, List.map_map, stepsOf_tickers]
  · intro hall
    rw [analyzeTickers_charts]
    exact charts_parallel env ts none hall

/-- Witness for C9 (amended): a fully successful two-ticker batch has a
parallel charts list. -/
theorem c9_witness :
    (analyzeTickers successEnv ["AAPL", "MSFT"]).charts.map
      ChartEntry.ticker = ["AAPL", "MSFT"] :=
  (c9_structure successEnv ["AAPL", "MSFT"]).2.2.2.2 (by decide)

/-- Counterexample to C3 as stated: on the input
`[" ", "A", "B", "C", "D", "E"]` the code analyzes `["", "A", "B", "C",
"D"]` — the whitespace-only entry survives (normalized to the empty string)
and `"E"` is cut — while the first 5 tickers after the claim's
normalization (strip, upper-case, drop empties) are `["A", "B", "C", "D",
"E"]`. -/
theorem c3_counterexample :
    (process_tickers envAllEmpty [" ", "A", "B", "C", "D", "E"]).results.map
      tickerOf = ["", "A", "B", "C", "D"] ∧
    specNormalize [" ", "A", "B", "C", "D", "E"] = ["A", "B", "C", "D", "E"] ∧
    (["", "A", "B", "C", "D"] : List String) ≠ ["A", "B", "C", "D", "E"] := by
  refine ⟨?_, by decide, by decide⟩
  rw [process_tickers_analyzed]
  decide

/-- C3 (amended): only the first 5 tickers after the code's normalization
are analyzed, where `process_tickers` drops the entries that are empty
before stripping and then strips and upper-cases the rest (so a
whitespace-only entry is kept as an empty string), and the file path strips
each line, drops blank lines, and strips and upper-cases what remains; in
both cases at most 5 tickers are analyzed. -/
theorem c3_truncation (env : String → TickerEnv) (ts lines : List String) :
    (process_tickers env ts).results.map tickerOf =
      (((ts.filter (fun t => t != "")).map
        (fun t => pyUpper (pyStrip t))).take 5) ∧
    (process_tickers env ts).results.length ≤ 5 ∧
    (process_file env (txtTickers lines)).results.map tickerOf =
      ((((lines.map pyStrip).filter (fun l => l != "")).map
        (fun t => pyUpper (pyStrip t))).take 5) ∧
    (process_file env (txtTickers lines)).results.length ≤ 5 := by
  refine ⟨process_tickers_analyzed env ts, ?_,
    process_file_analyzed env (txtTickers lines), ?_⟩
  · have h := congrArg List.length (process_tickers_analyzed env ts)
    rw [List.length_map] at h
    rw [h, List.length_take]
    exact min_le_left _ _
  · have h := congrArg List.length (process_file_analyzed env (txtTickers lines))
    rw [List.length_map] at h
    unfold txtTickers at h ⊢
    rw [h, List.length_take]
    exact min_le_left _ _

/-! ### Claim theorems for the document route -/

/-- C7: for every registered agent, an uploaded file whose extension is not
among that agent's supported types is rejected with a 400 validation error,
and the trace of external calls is empty — no document loading, market-data
fetch or LLM call happens on the request's behalf. -/
theorem c7_unsupported_extension (env : DocEnv) (req : DocRequest)
    (agent : AgentEntry) (hf : req.hasFile = true)
    (ha : lookupAgent (req.agentTypeField.getD "summarizer") = some agent)
    (he : lookupMime agent (filenameExt req.filename) = none) :
    process_document env req =
      ⟨.err ("Unsupported file type for " ++ agent.name ++ ": " ++
        filenameExt req.filename), 400, []⟩ := by
  unfold process_document
  rw [hf, if_neg (by simp)]
  dsimp only
  rw [ha]
  dsimp only
  rw [he]

/-- Witness for C7: an `.exe` upload addressed to the finance agent. -/
theorem c7_witness :
    process_document trivDocEnv exeReq =
      ⟨.err "Unsupported file type for Finance Analyzer: exe", 400, []⟩ :=
  c7_unsupported_extension trivDocEnv exeReq financeEntry rfl
    (by decide) (by decide)

/-- C8: a document-processing request naming an agent identifier missing
from the registry is answered with the typed unknown-agent error and HTTP
status 400, and no dispatch happens — the external-call trace is empty. -/
theorem c8_unknown_agent (env : DocEnv) (req : DocRequest)
    (hf : req.hasFile = true)
    (ha : lookupAgent (req.agentTypeField.getD "summarizer") = none) :
    process_document env req =
      ⟨.err ("Unknown agent type: " ++ req.agentTypeField.getD "summarizer"),
        400, []⟩ := by
  unfold process_document
  rw [hf, if_neg (by simp)]
  dsimp only
  rw [ha]

/-- Witness for C8: the unregistered agent identifier `wizard`. -/
theorem c8_witness :
    process_document trivDocEnv wizardReq =
      ⟨.err "Unknown agent type: wizard", 400, []⟩ :=
  c8_unknown_agent trivDocEnv wizardReq rfl (by decide)

end D2K
